import Mathlib

/-!
Shallow embedding of the upload-and-orchestration pipeline of
`azure-voice-clone` (source: `src/azure_voice_client.py` and
`config/azure_config.py`), together with theorems settling the frozen
claims about it.

Conventions of the embedding:
* Python exceptions become an explicit error type; a fallible operation
  returns `Except`.
* External effects (blob-store calls, the status query of the training
  service) are parameters: an oracle gives the settled outcome of each
  call, and the embedded function mirrors the source's control flow over
  those outcomes.
* `await asyncio.sleep d` is recorded as the duration `d` appended to a
  list of sleeps, so retry/backoff schedules are observable.
* Unbounded `while True` loops become fuel-indexed recursion returning
  `Option`; `none` models non-termination within the given fuel.
-/

namespace AzureVoiceClone

/-- Errors that a single blob-store / file operation can raise.
`resourceExists` models `azure.core.exceptions.ResourceExistsError`;
`azureError` models a transient `AzureError` (network/storage);
`fileNotFound` and `permissionDenied` model local-file `OSError`s;
`verificationFailed` models the `AudioProcessingError` raised by
`_upload_audio_file` when `_verify_upload` returns false. -/
inductive UpErr
  | resourceExists
  | azureError
  | fileNotFound
  | permissionDenied
  | verificationFailed
  deriving DecidableEq, Repr

/-- Modelled from the spec: classification of errors into retryable vs
terminal (spec §4.2 names permission denied and local file missing as
non-retryable). The source code contains no such classification; this
predicate exists only to state the claims that use the word
"non-retryable". -/
def specNonRetryable : UpErr → Bool
  | .fileNotFound => true
  | .permissionDenied => true
  | _ => false

deriving instance DecidableEq for Except

/-- True exactly on `Except.error`. -/
def isErr {ε α : Type} : Except ε α → Bool
  | .error _ => true
  | .ok _ => false

/-! ## RetryingUploader: `_upload_audio_file` (source lines 266-298)

```python
max_retries = 3
retry_delay = 1
for attempt in range(max_retries):
    try:
        ...hash, open, upload_blob, verify...
        return
    except Exception as e:
        if attempt == max_retries - 1:
            raise
        await asyncio.sleep(retry_delay * (2 ** attempt))
```

One iteration of the loop body is one attempt of the underlying
transfer; its settled outcome is given by the oracle `attempts : Nat →
Except UpErr Unit` (outcome of the k-th execution of the body, counting
from 0). The embedding records the result, the number of times the body
was executed, and the list of sleep durations. -/

/-- Result of one run of `_upload_audio_file`: the value returned or
error raised, how many times the loop body (the underlying transfer
attempt) executed, and the durations passed to `asyncio.sleep`. -/
structure UploadRun where
  result : Except UpErr Unit
  attemptsMade : Nat
  sleeps : List Nat
  deriving DecidableEq, Repr

/-- The retry loop of `_upload_audio_file`. `fuel` is the number of
iterations `range(max_retries)` still has; `attempt` is the current
iteration index; `sleeps` accumulates sleep durations. `retry_delay` is
1 in the source, so the sleep after failing attempt `k` is
`1 * 2 ^ k`. When `fuel` decrements to 0 the current iteration is the
last one (`attempt == max_retries - 1`) and the exception is re-raised.
Falling off the loop (fuel 0) returns `None`, i.e. success. -/
def uploadAttemptLoop (attempts : Nat → Except UpErr Unit) :
    Nat → Nat → List Nat → UploadRun
  | 0, attempt, sleeps => ⟨.ok (), attempt, sleeps⟩
  | fuel + 1, attempt, sleeps =>
    match attempts attempt with
    | .ok _ => ⟨.ok (), attempt + 1, sleeps⟩
    | .error e =>
      if fuel = 0 then ⟨.error e, attempt + 1, sleeps⟩
      else uploadAttemptLoop attempts fuel (attempt + 1) (sleeps ++ [1 * 2 ^ attempt])

/-- `_upload_audio_file` with `max_retries = 3`, `retry_delay = 1`,
run against the attempt-outcome oracle `attempts`. -/
def upload_audio_file (attempts : Nat → Except UpErr Unit) : UploadRun :=
  uploadAttemptLoop attempts 3 0 []

/-! ## TrainingJobMonitor: `_monitor_training_progress` (source lines 313-319)

```python
while True:
    status = await self._get_model_status(model_id)
    if status['status'] in {'Succeeded', 'Failed'}:
        return status
    await asyncio.sleep(60)
```

The status source is an oracle `q : Nat → Except UpErr JobStatus`
giving the outcome of the k-th query (an `.error` models the query
raising). The loop has no exception handler, so a raising query
propagates out of the monitor. -/

/-- Training-job status values, as the strings used by the source. -/
inductive JobStatus
  | Pending
  | Running
  | Succeeded
  | Failed
  deriving DecidableEq, Repr

/-- Membership test `status['status'] in {'Succeeded', 'Failed'}`. -/
def isTerminalStatus : JobStatus → Bool
  | .Succeeded => true
  | .Failed => true
  | _ => false

/-- Result of a terminating run of the monitor loop: the returned status
or propagated query error, and the recorded sleeps (one entry of 60 per
non-terminal poll). -/
structure MonitorRun where
  result : Except UpErr JobStatus
  sleeps : List Nat
  deriving DecidableEq, Repr

/-- The `while True` polling loop, fuel-indexed. `k` is the index of the
next query; `sleeps` accumulates the sleeps performed so far. -/
def monitorLoop (q : Nat → Except UpErr JobStatus) :
    Nat → Nat → List Nat → Option MonitorRun
  | 0, _, _ => none
  | fuel + 1, k, sleeps =>
    match q k with
    | .error e => some ⟨.error e, sleeps⟩
    | .ok s =>
      if isTerminalStatus s then some ⟨.ok s, sleeps⟩
      else monitorLoop q fuel (k + 1) (sleeps ++ [60])

/-- `_monitor_training_progress` run against the query oracle `q` with
the given fuel. -/
def monitor_training_progress (q : Nat → Except UpErr JobStatus) (fuel : Nat) :
    Option MonitorRun :=
  monitorLoop q fuel 0 []

/-! ## AzureConfig (source `config/azure_config.py`)

The environment is a map from environment-variable name to
`Option String` (`none` = unset, mirroring `os.getenv`). Python's
truthiness test `not getattr(cls, var)` is true when the value is `None`
or the empty string. -/

/-- An environment: `os.getenv` as a function. -/
abbrev Env := String → Option String

/-- Class attribute `SPEECH_KEY = os.getenv('AZURE_SPEECH_KEY')`. -/
def SPEECH_KEY (env : Env) : Option String := env "AZURE_SPEECH_KEY"

/-- Class attribute `SPEECH_REGION = os.getenv('AZURE_SPEECH_REGION')`. -/
def SPEECH_REGION (env : Env) : Option String := env "AZURE_SPEECH_REGION"

/-- Class attribute
`STORAGE_CONNECTION_STRING = os.getenv('AZURE_STORAGE_CONNECTION_STRING')`. -/
def STORAGE_CONNECTION_STRING (env : Env) : Option String :=
  env "AZURE_STORAGE_CONNECTION_STRING"

/-- Class attribute
`CONTAINER_NAME = os.getenv('AZURE_CONTAINER_NAME', 'voice-samples')`:
the default applies only when the variable is unset. -/
def CONTAINER_NAME (env : Env) : String :=
  (env "AZURE_CONTAINER_NAME").getD "voice-samples"

/-- `getattr(AzureConfig, var)` for the three required attribute names. -/
def getattrConfig (env : Env) : String → Option String
  | "SPEECH_KEY" => SPEECH_KEY env
  | "SPEECH_REGION" => SPEECH_REGION env
  | "STORAGE_CONNECTION_STRING" => STORAGE_CONNECTION_STRING env
  | _ => none

/-- Python truthiness of an `os.getenv` result: `None` and `''` are
falsy, every other string is truthy. -/
def pyTruthy : Option String → Bool
  | none => false
  | some s => !s.isEmpty

/-- A required setting counts as absent when its value is unset or the
empty string — exactly the values Python's `not getattr(cls, var)`
treats as missing. -/
def configAbsent (v : Option String) : Prop := v = none ∨ v = some ""

instance (v : Option String) : Decidable (configAbsent v) := by
  unfold configAbsent; infer_instance

/-- The list `required_vars` of the source. -/
def requiredVars : List String :=
  ["SPEECH_KEY", "SPEECH_REGION", "STORAGE_CONNECTION_STRING"]

/-- The comprehension
`[var for var in required_vars if not getattr(cls, var)]`. -/
def missingVars (env : Env) : List String :=
  requiredVars.filter (fun v => !pyTruthy (getattrConfig env v))

/-- The error raised by `validate_config`: a `ValueError` carrying the
list of missing variable names. -/
inductive ConfigErr
  | missingRequired (vars : List String)
  deriving DecidableEq, Repr

/-- `AzureConfig.validate_config`: raises `ValueError` naming the
missing variables when any required one is falsy, else returns `True`. -/
def validate_config (env : Env) : Except ConfigErr Bool :=
  let missing := missingVars env
  if missing.isEmpty then .ok true else .error (.missingRequired missing)

/-! ## DatasetUploadPipeline: `upload_training_data` (source lines 84-127)

A dataset item is a parsed JSON object, modelled as an association list
of string keys to string values (only key presence and the
`'audio_file'` value matter to the embedded control flow). The network
is an oracle giving the settled outcome of container creation. The
pipeline additionally returns the list of network calls it issued, in
order.

Line 107 reads `await self._upload_dataset_file(dataset_file)`, but no
method `_upload_dataset_file` is defined anywhere in the repository
(`AzureVoiceClient` has no base class beyond `object` and no
`__getattr__`), so reaching that line deterministically raises
`AttributeError` — before any network call for the manifest and before
any audio-upload task is created. The embedding reflects this: after
validation succeeds, the pipeline raises `attributeError`; the audio
batch of lines 109-123 is unreachable. -/

/-- A parsed JSON object of the dataset array. -/
abbrev Item := List (String × String)

/-- `required_fields = {'audio_file', 'text', 'duration'}`. -/
def requiredFields : List String := ["audio_file", "text", "duration"]

/-- Python's `field in item` for a JSON object. -/
def hasField (item : Item) (f : String) : Bool :=
  item.any (fun kv => kv.1 = f)

/-- `_validate_dataset_format` (source lines 244-250):
`all(all(field in item for field in required_fields) for item in dataset)`. -/
def validate_dataset_format (dataset : List Item) : Bool :=
  dataset.all (fun item => requiredFields.all (fun f => hasField item f))

/-- `item['audio_file']`; defaulted to `""` for the (post-validation
unreachable) absent case. -/
def audioFileOf (item : Item) : String :=
  ((item.find? (fun kv => kv.1 = "audio_file")).map (fun kv => kv.2)).getD ""

/-- Settled outcomes of the network calls the pipeline can issue. With
`_upload_dataset_file` undefined, the only network call the pipeline
ever reaches is container creation. -/
structure NetModel where
  container : Except UpErr Unit

/-- Network calls, in the order the pipeline issues them.
`uploadManifest` and `uploadAudio` are the calls lines 107 and 110-115
are written to issue; they never occur in any run, because the
undefined-method `AttributeError` precedes them. -/
inductive NetEvent
  | ensureContainer
  | uploadManifest
  | uploadAudio (path : String)
  deriving DecidableEq, Repr

/-- Errors `upload_training_data` can raise: a propagated single-call
error, the `ValueError('Invalid dataset format')` of
`_load_and_validate_dataset`, or the `AttributeError` raised at line
107 because `_upload_dataset_file` is defined nowhere in the
repository. -/
inductive PipeErr
  | callFailed (e : UpErr)
  | invalidDataset
  | attributeError
  deriving DecidableEq, Repr

/-- `_ensure_container_exists` (source lines 223-231): `create_container`
with `except ResourceExistsError: pass`. -/
def ensure_container_exists (net : NetModel) : Except UpErr Unit :=
  match net.container with
  | .error .resourceExists => .ok ()
  | r => r

/-- `upload_training_data` (source lines 84-127), with the already
parsed dataset array as input. Control flow, in source order:
1. `_ensure_container_exists` (network);
2. `_load_and_validate_dataset` — raises `ValueError` when
   `_validate_dataset_format` is false;
3. `_calculate_total_size` and `_validate_storage_quota` — purely local
   (the quota check is a no-op in the source), no events;
4. `await self._upload_dataset_file(dataset_file)` — the attribute
   lookup raises `AttributeError` (no such method exists in the
   repository), so no network call is issued here and the remaining
   steps (the audio-upload `gather` of lines 109-115, the failure
   check of lines 117-121 and the `return True` of line 123) are
   unreachable.
Returns the result together with the ordered network-call trace. -/
def upload_training_data (net : NetModel) (dataset : List Item) :
    Except PipeErr Bool × List NetEvent :=
  match ensure_container_exists net with
  | .error e => (.error (.callFailed e), [.ensureContainer])
  | .ok _ =>
    if validate_dataset_format dataset then
      (.error .attributeError, [.ensureContainer])
    else (.error .invalidDataset, [.ensureContainer])

/-! ## Concurrency structure of the audio-upload batch (source lines 110-115)

```python
async with asyncio.Semaphore(max_workers):
    upload_tasks = [self._upload_audio_file(item['audio_file']) for item in dataset]
    results = await asyncio.gather(*upload_tasks, return_exceptions=True)
```

The semaphore is entered once by the coordinating coroutine, before the
tasks are created, and exited after `gather` returns; no per-file task
touches it. We model cooperative schedules as traces of events:
`acquire`/`release` of the semaphore, and `taskStart i`/`taskEnd i`
marking the interval during which upload task `i` is in flight. A trace
is one the code can produce iff the single `acquire` is first, the
single `release` is last, and each task starts once and ends once after
its start — `gather` imposes no further ordering between the tasks, and
nothing gates their intervals. A trace respects an
`asyncio.Semaphore(cap)` iff the number of held permits never exceeds
`cap`. -/

/-- Scheduler-visible events of the batch. -/
inductive SchedEvent
  | acquire
  | release
  | taskStart (i : Nat)
  | taskEnd (i : Nat)
  deriving DecidableEq, Repr

/-- Position of the first occurrence of `e` in `tr` (length if absent). -/
def evIdx (tr : List SchedEvent) (e : SchedEvent) : Nat :=
  (tr.findIdx? (fun x => x = e)).getD tr.length

/-- Traces the code of lines 110-115 can produce for `n` upload tasks:
the coordinator's single semaphore acquisition opens the trace and its
release closes it (`async with`), the per-task events appear exactly
once each with start before end, and nothing else constrains the
interleaving of the tasks. -/
def isCodeSchedule (n : Nat) (tr : List SchedEvent) : Bool :=
  tr.head? = some .acquire &&
  tr.getLast? = some .release &&
  tr.count .acquire = 1 &&
  tr.count .release = 1 &&
  tr.length = 2 * n + 2 &&
  (List.range n).all (fun i =>
    tr.count (.taskStart i) = 1 &&
    tr.count (.taskEnd i) = 1 &&
    evIdx tr (.taskStart i) < evIdx tr (.taskEnd i))

/-- Semaphore discipline: after every prefix of the trace, the number of
permits held (`acquire`s minus `release`s) is at most `cap`. -/
def semaphoreRespected (cap : Nat) (tr : List SchedEvent) : Bool :=
  (List.range (tr.length + 1)).all (fun k =>
    (tr.take k).count .acquire - (tr.take k).count .release ≤ cap)

/-- Number of tasks in flight after the first `k` events: started but
not yet ended. -/
def inFlightAt (n : Nat) (tr : List SchedEvent) (k : Nat) : Nat :=
  ((List.range n).filter (fun i =>
    (tr.take k).contains (.taskStart i) && !(tr.take k).contains (.taskEnd i))).length

/-- The maximum number of simultaneously in-flight tasks over a trace. -/
def maxInFlight (n : Nat) (tr : List SchedEvent) : Nat :=
  ((List.range (tr.length + 1)).map (fun k => inFlightAt n tr k)).foldl max 0

/-- A schedule of 5 upload tasks in which all 5 are in flight at once. -/
def allAtOnceSchedule : List SchedEvent :=
  [.acquire, .taskStart 0, .taskStart 1, .taskStart 2, .taskStart 3, .taskStart 4,
   .taskEnd 0, .taskEnd 1, .taskEnd 2, .taskEnd 3, .taskEnd 4, .release]

/-! ## HashVerifier: `_calculate_file_hash` (source lines 300-306)

```python
sha256_hash = hashlib.sha256()
async with aiofiles.open(file_path, 'rb') as f:
    while chunk := await f.read(8192):
        sha256_hash.update(chunk)
return sha256_hash.hexdigest()
```

File content is a byte list (`List Nat`, each entry < 256 for genuine
bytes). The read loop yields successive 8192-byte chunks of the
content. The `hashlib.sha256` object is modelled by its documented
semantics: `update` absorbs bytes (update over a concatenation equals
successive updates), and `hexdigest` is the SHA-256 hex digest of all
bytes absorbed so far; SHA-256 itself is implemented below (FIPS 180-4)
over `Nat` arithmetic taken mod `2^32`. -/

/-- Truncation to a 32-bit word. -/
def w32 (x : Nat) : Nat := x % 4294967296

/-- Logical right shift. -/
def shr (x n : Nat) : Nat := x / 2 ^ n

/-- Right rotation of a 32-bit word (assumes `x < 2^32`). -/
def rotr32 (x n : Nat) : Nat := x / 2 ^ n + x % 2 ^ n * 2 ^ (32 - n)

/-- Bitwise complement of a 32-bit word (assumes `x < 2^32`). -/
def compl32 (x : Nat) : Nat := 4294967295 - x

/-- SHA-256 choose function. -/
def shaCh (e f g : Nat) : Nat := Nat.xor (e &&& f) (compl32 e &&& g)

/-- SHA-256 majority function. -/
def shaMaj (a b c : Nat) : Nat := Nat.xor (Nat.xor (a &&& b) (a &&& c)) (b &&& c)

/-- SHA-256 big sigma 0. -/
def bsig0 (x : Nat) : Nat := Nat.xor (Nat.xor (rotr32 x 2) (rotr32 x 13)) (rotr32 x 22)

/-- SHA-256 big sigma 1. -/
def bsig1 (x : Nat) : Nat := Nat.xor (Nat.xor (rotr32 x 6) (rotr32 x 11)) (rotr32 x 25)

/-- SHA-256 small sigma 0. -/
def ssig0 (x : Nat) : Nat := Nat.xor (Nat.xor (rotr32 x 7) (rotr32 x 18)) (shr x 3)

/-- SHA-256 small sigma 1. -/
def ssig1 (x : Nat) : Nat := Nat.xor (Nat.xor (rotr32 x 17) (rotr32 x 19)) (shr x 10)

/-- The 64 SHA-256 round constants (FIPS 180-4, written in decimal). -/
def shaK : List Nat :=
  [1116352408, 1899447441, 3049323471, 3921009573, 961987163,
   1508970993, 2453635748, 2870763221, 3624381080, 310598401,
   607225278, 1426881987, 1925078388, 2162078206, 2614888103,
   3248222580, 3835390401, 4022224774, 264347078, 604807628,
   770255983, 1249150122, 1555081692, 1996064986, 2554220882,
   2821834349, 2952996808, 3210313671, 3336571891, 3584528711,
   113926993, 338241895, 666307205, 773529912, 1294757372,
   1396182291, 1695183700, 1986661051, 2177026350, 2456956037,
   2730485921, 2820302411, 3259730800, 3345764771, 3516065817,
   3600352804, 4094571909, 275423344, 430227734, 506948616,
   659060556, 883997877, 958139571, 1322822218, 1537002063,
   1747873779, 1955562222, 2024104815, 2227730452, 2361852424,
   2428436474, 2756734187, 3204031479, 3329325298]

/-- The SHA-256 initial hash value (FIPS 180-4, written in decimal). -/
def shaH0 : List Nat :=
  [1779033703, 3144134277, 1013904242, 2773480762,
   1359893119, 2600822924, 528734635, 1541459225]

/-- Big-endian words from a byte list (groups of 4). -/
def bytesToWords : List Nat → List Nat
  | b0 :: b1 :: b2 :: b3 :: rest =>
    (b0 * 16777216 + b1 * 65536 + b2 * 256 + b3) :: bytesToWords rest
  | _ => []

/-- Extend a message schedule by `count` further words. -/
def extendSchedule : List Nat → Nat → List Nat
  | w, 0 => w
  | w, c + 1 =>
    let t := w.length
    let nw := w32 (ssig1 (w.getD (t - 2) 0) + w.getD (t - 7) 0 +
      ssig0 (w.getD (t - 15) 0) + w.getD (t - 16) 0)
    extendSchedule (w ++ [nw]) c

/-- Working state of the compression function. -/
structure ShaState where
  a : Nat
  b : Nat
  c : Nat
  d : Nat
  e : Nat
  f : Nat
  g : Nat
  h : Nat
  deriving DecidableEq, Repr

/-- One round of the SHA-256 compression function. -/
def shaRound (s : ShaState) (kw : Nat × Nat) : ShaState :=
  let t1 := w32 (s.h + bsig1 s.e + shaCh s.e s.f s.g + kw.1 + kw.2)
  let t2 := w32 (bsig0 s.a + shaMaj s.a s.b s.c)
  ⟨w32 (t1 + t2), s.a, s.b, s.c, w32 (s.d + t1), s.e, s.f, s.g⟩

/-- Compress one 64-byte block into the running hash value. -/
def compressBlock (hs : List Nat) (block : List Nat) : List Nat :=
  let w := extendSchedule (bytesToWords block) 48
  let s0 : ShaState :=
    ⟨hs.getD 0 0, hs.getD 1 0, hs.getD 2 0, hs.getD 3 0,
     hs.getD 4 0, hs.getD 5 0, hs.getD 6 0, hs.getD 7 0⟩
  let s := (shaK.zip w).foldl shaRound s0
  [w32 (hs.getD 0 0 + s.a), w32 (hs.getD 1 0 + s.b), w32 (hs.getD 2 0 + s.c),
   w32 (hs.getD 3 0 + s.d), w32 (hs.getD 4 0 + s.e), w32 (hs.getD 5 0 + s.f),
   w32 (hs.getD 6 0 + s.g), w32 (hs.getD 7 0 + s.h)]

/-- The 8 big-endian bytes of a 64-bit length value. -/
def lenBytes64 (n : Nat) : List Nat :=
  [shr n 56 % 256, shr n 48 % 256, shr n 40 % 256, shr n 32 % 256,
   shr n 24 % 256, shr n 16 % 256, shr n 8 % 256, n % 256]

/-- SHA-256 padding: append `0x80`, zero bytes to reach 56 mod 64, then
the bit length as 8 big-endian bytes. -/
def shaPad (msg : List Nat) : List Nat :=
  let pad := (55 + 64 - msg.length % 64) % 64
  msg ++ [0x80] ++ List.replicate pad 0 ++ lenBytes64 (8 * msg.length)

/-- Split a list into consecutive chunks of `n` elements (the last chunk
may be shorter); for `n = 0` no chunk is produced. -/
def chunksOf {α : Type} (n : Nat) : List α → List (List α)
  | [] => []
  | x :: xs =>
    if _h : n = 0 then []
    else (x :: xs).take n :: chunksOf n ((x :: xs).drop n)
termination_by l => l.length
decreasing_by
  simp only [List.length_drop, List.length_cons]
  omega

/-- A lowercase hex digit. -/
def hexDigit (n : Nat) : Char :=
  if n < 10 then Char.ofNat (48 + n) else Char.ofNat (87 + n)

/-- Two lowercase hex digits of a byte. -/
def byteHex (b : Nat) : List Char := [hexDigit (b / 16 % 16), hexDigit (b % 16)]

/-- The 4 big-endian bytes of a 32-bit word. -/
def wordBytes (w : Nat) : List Nat :=
  [shr w 24 % 256, shr w 16 % 256, shr w 8 % 256, w % 256]

/-- SHA-256 of a byte list, as a lowercase hex string. -/
def sha256hex (msg : List Nat) : String :=
  let hs := (chunksOf 64 (shaPad msg)).foldl compressBlock shaH0
  String.mk ((hs.map wordBytes).flatten.map byteHex).flatten

/-- The `hashlib.sha256` object: the bytes absorbed so far via `update`.
By the documented contract of `hashlib`, `m.update(a); m.update(b)` is
equivalent to `m.update(a + b)`, so the state is exactly the
concatenation of everything absorbed. -/
structure Sha256Ctx where
  absorbed : List Nat
  deriving DecidableEq, Repr

/-- `hashlib.sha256()`. -/
def shaInit : Sha256Ctx := ⟨[]⟩

/-- `sha256_hash.update(chunk)`. -/
def shaUpdate (ctx : Sha256Ctx) (chunk : List Nat) : Sha256Ctx :=
  ⟨ctx.absorbed ++ chunk⟩

/-- `sha256_hash.hexdigest()`. -/
def hexdigest (ctx : Sha256Ctx) : String := sha256hex ctx.absorbed

/-- The chunk size of the read loop: `f.read(8192)`. -/
def readChunkSize : Nat := 8192

/-- `_calculate_file_hash`: absorb the content in successive 8192-byte
chunks (the read loop stops at the first empty read, i.e. at end of
file), then take the hex digest. -/
def calculate_file_hash (content : List Nat) : String :=
  hexdigest ((chunksOf readChunkSize content).foldl shaUpdate shaInit)

/-! ## Helper lemmas -/

/-- Concatenating the chunks of a list gives back the list. -/
theorem chunksOf_flatten {α : Type} (n : Nat) (hn : n ≠ 0) (l : List α) :
    (chunksOf n l).flatten = l := by
  match l with
  | [] => simp [chunksOf]
  | x :: xs =>
    rw [chunksOf, dif_neg hn, List.flatten_cons,
      chunksOf_flatten n hn ((x :: xs).drop n), List.take_append_drop]
termination_by l.length
decreasing_by
  simp only [List.length_drop, List.length_cons]
  omega

/-- Folding `update` over chunks absorbs their concatenation. -/
theorem foldl_shaUpdate (chunks : List (List Nat)) (ctx : Sha256Ctx) :
    (chunks.foldl shaUpdate ctx).absorbed = ctx.absorbed ++ chunks.flatten := by
  induction chunks generalizing ctx with
  | nil => simp
  | cons c cs ih => simp [shaUpdate, ih]

/-- The retry loop executes its body at most `attempt + fuel` times in
total. -/
theorem uploadAttemptLoop_le (attempts : Nat → Except UpErr Unit) :
    ∀ (fuel attempt : Nat) (sleeps : List Nat),
      (uploadAttemptLoop attempts fuel attempt sleeps).attemptsMade ≤ attempt + fuel := by
  intro fuel
  induction fuel with
  | zero => intro attempt sleeps; simp [uploadAttemptLoop]
  | succ f ih =>
    intro attempt sleeps
    rw [uploadAttemptLoop]
    cases hA : attempts attempt with
    | ok u =>
      show attempt + 1 ≤ attempt + (f + 1)
      omega
    | error e =>
      by_cases hf : f = 0
      · subst hf
        show attempt + 1 ≤ attempt + (0 + 1)
        omega
      · simp only [if_neg hf]
        have := ih (attempt + 1) (sleeps ++ [1 * 2 ^ attempt])
        omega

/-- A status the monitor loop returns without an exception is terminal. -/
theorem monitorLoop_ok_terminal (q : Nat → Except UpErr JobStatus) :
    ∀ (fuel k : Nat) (sleeps sl : List Nat) (s : JobStatus),
      monitorLoop q fuel k sleeps = some ⟨.ok s, sl⟩ → isTerminalStatus s = true := by
  intro fuel
  induction fuel with
  | zero => intro k sleeps sl s h; simp [monitorLoop] at h
  | succ f ih =>
    intro k sleeps sl s h
    rw [monitorLoop] at h
    cases hq : q k with
    | error e => rw [hq] at h; simp_all
    | ok s0 =>
      rw [hq] at h
      by_cases ht : isTerminalStatus s0 = true
      · simp only [if_pos ht] at h
        obtain ⟨h1, h2⟩ : s0 = s ∧ sleeps = sl := by simpa using h
        rw [← h1]
        exact ht
      · simp only [if_neg ht] at h
        exact ih (k + 1) (sleeps ++ [60]) sl s h

/-- One monitor step when the query raises. -/
theorem monitorLoop_step_err (q : Nat → Except UpErr JobStatus) (fuel k : Nat)
    (sleeps : List Nat) (e : UpErr) (h : q k = .error e) :
    monitorLoop q (fuel + 1) k sleeps = some ⟨.error e, sleeps⟩ := by
  rw [monitorLoop, h]

/-- One monitor step when the query returns a non-terminal status. -/
theorem monitorLoop_step_running (q : Nat → Except UpErr JobStatus) (fuel k : Nat)
    (sleeps : List Nat) (s : JobStatus) (h : q k = .ok s)
    (ht : isTerminalStatus s = false) :
    monitorLoop q (fuel + 1) k sleeps = monitorLoop q fuel (k + 1) (sleeps ++ [60]) := by
  rw [monitorLoop, h]
  simp [ht]

/-- One monitor step when the query returns a terminal status. -/
theorem monitorLoop_step_terminal (q : Nat → Except UpErr JobStatus) (fuel k : Nat)
    (sleeps : List Nat) (s : JobStatus) (h : q k = .ok s)
    (ht : isTerminalStatus s = true) :
    monitorLoop q (fuel + 1) k sleeps = some ⟨.ok s, sleeps⟩ := by
  rw [monitorLoop, h]
  simp [ht]

/-- If the first `k` queries from tick `j` return `Running` and the
next raises, the loop result is that error after `k` further sleeps. -/
theorem monitorLoop_error_after (q : Nat → Except UpErr JobStatus) (e : UpErr) :
    ∀ (k fuel j : Nat) (sleeps : List Nat),
      (∀ i, i < k → q (j + i) = .ok .Running) →
      q (j + k) = .error e → k < fuel →
      monitorLoop q fuel j sleeps = some ⟨.error e, sleeps ++ List.replicate k 60⟩ := by
  intro k
  induction k with
  | zero =>
    intro fuel j sleeps _ hk hf
    cases fuel with
    | zero => omega
    | succ f => rw [monitorLoop_step_err q f j sleeps e (by simpa using hk)]; simp
  | succ m ih =>
    intro fuel j sleeps hpre hk hf
    cases fuel with
    | zero => omega
    | succ f =>
      rw [monitorLoop_step_running q f j sleeps .Running
        (by simpa using hpre 0 (by omega)) rfl]
      have := ih f (j + 1) (sleeps ++ [60])
        (fun i hi => by have := hpre (i + 1) (by omega); simpa [Nat.add_assoc, Nat.add_comm 1 i] using this)
        (by have := hk; simpa [Nat.add_assoc, Nat.add_comm 1 m] using this)
        (by omega)
      rw [this]
      simp [List.replicate_succ]

/-- Python truthiness is false exactly on the values the configuration
check treats as absent. -/
theorem pyTruthy_false_iff (v : Option String) :
    pyTruthy v = false ↔ configAbsent v := by
  cases v with
  | none => simp [pyTruthy, configAbsent]
  | some s => simp [pyTruthy, configAbsent, String.isEmpty_iff]

/-! ## Claim C6 -/

/-- Claim C6: for every file content, `_calculate_file_hash` returns
exactly the SHA-256 hex digest of the whole content — absorbing the
content in fixed-size 8192-byte chunks yields the same digest as
hashing the concatenated content in one pass — and two calls on
unmodified content return identical output. -/
theorem calculate_file_hash_eq_sha256 (content : List Nat) :
    calculate_file_hash content = sha256hex content ∧
    calculate_file_hash content = calculate_file_hash content := by
  refine ⟨?_, rfl⟩
  unfold calculate_file_hash hexdigest
  rw [foldl_shaUpdate]
  simp only [shaInit, List.nil_append]
  rw [chunksOf_flatten readChunkSize (by decide) content]

/-! ## Claim C2 -/

/-- Claim C2: the uploader makes at most 3 attempts in total; the sleep
before retry k is `retry_delay * 2 ^ (k - 1)` with `retry_delay = 1`
(so 1 before the 2nd attempt and 2 before the 3rd); and when every
attempt fails the loop body — one transfer attempt per iteration — runs
exactly 3 times and the operation raises the error of the last attempt
(the failure the spec names `UploadError` carries the last underlying
cause). -/
theorem upload_audio_file_retry_policy (attempts : Nat → Except UpErr Unit)
    (hall : ∀ k, k < 3 → isErr (attempts k) = true) :
    (upload_audio_file attempts).attemptsMade = 3 ∧
    (upload_audio_file attempts).sleeps = [1 * 2 ^ 0, 1 * 2 ^ 1] ∧
    (upload_audio_file attempts).result = attempts 2 ∧
    (∀ f, (upload_audio_file f).attemptsMade ≤ 3) := by
  have h0 := hall 0 (by omega)
  have h1 := hall 1 (by omega)
  have h2 := hall 2 (by omega)
  cases ha0 : attempts 0 with
  | ok u => rw [ha0] at h0; simp [isErr] at h0
  | error e0 =>
    cases ha1 : attempts 1 with
    | ok u => rw [ha1] at h1; simp [isErr] at h1
    | error e1 =>
      cases ha2 : attempts 2 with
      | ok u => rw [ha2] at h2; simp [isErr] at h2
      | error e2 =>
        refine ⟨?_, ?_, ?_, fun f => uploadAttemptLoop_le f 3 0 []⟩ <;>
          simp [upload_audio_file, uploadAttemptLoop, ha0, ha1, ha2]

/-- Concrete always-failing transfer used to witness claims C2. -/
def alwaysAzureError : Nat → Except UpErr Unit := fun _ => .error .azureError

/-- Witness for claim C2 at a transfer that always fails with a
transient storage error. -/
theorem upload_audio_file_retry_policy_witness :
    (upload_audio_file alwaysAzureError).attemptsMade = 3 ∧
    (upload_audio_file alwaysAzureError).sleeps = [1 * 2 ^ 0, 1 * 2 ^ 1] ∧
    (upload_audio_file alwaysAzureError).result = alwaysAzureError 2 := by
  have h := upload_audio_file_retry_policy alwaysAzureError (fun k _ => rfl)
  exact ⟨h.1, h.2.1, h.2.2.1⟩

/-! ## Claim C5 -/

/-- Concrete transfer failing with a non-retryable error. -/
def alwaysFileNotFound : Nat → Except UpErr Unit := fun _ => .error .fileNotFound

/-- Counterexample to claim C5: with a first failure that is
non-retryable (the local file is missing), the uploader does not
surface it immediately — the loop body runs 3 times with sleeps 1 and
2, not exactly once with no sleep, because the `except Exception`
handler retries every error uniformly. -/
theorem upload_nonretryable_counterexample :
    specNonRetryable .fileNotFound = true ∧
    (upload_audio_file alwaysFileNotFound).attemptsMade = 3 ∧
    (upload_audio_file alwaysFileNotFound).sleeps = [1, 2] ∧
    ¬((upload_audio_file alwaysFileNotFound).attemptsMade = 1 ∧
      (upload_audio_file alwaysFileNotFound).sleeps = []) := by
  decide

/-- Claim C5 as amended: the uploader does not classify errors; a
persistent non-retryable failure consumes the full retry budget exactly
like a transient one — 3 executions of the loop body, sleeps of 1 and
2, and the last error raised. -/
theorem upload_nonretryable_retried (e : UpErr) (_he : specNonRetryable e = true) :
    (upload_audio_file (fun _ => .error e)).result = .error e ∧
    (upload_audio_file (fun _ => .error e)).attemptsMade = 3 ∧
    (upload_audio_file (fun _ => .error e)).sleeps = [1, 2] := by
  exact ⟨rfl, rfl, rfl⟩

/-- Witness for the amended claim C5 at the missing-local-file error. -/
theorem upload_nonretryable_retried_witness :
    (upload_audio_file (fun _ => Except.error UpErr.fileNotFound)).result =
      .error .fileNotFound ∧
    (upload_audio_file (fun _ => Except.error UpErr.fileNotFound)).attemptsMade = 3 ∧
    (upload_audio_file (fun _ => Except.error UpErr.fileNotFound)).sleeps = [1, 2] :=
  upload_nonretryable_retried .fileNotFound rfl

/-! ## Claim C7 -/

/-- Claim C7: the monitor loop returns exactly when the queried status
is terminal (in `{Succeeded, Failed}`), sleeping `poll_interval = 60`
time units before each re-query; given the status sequence `Running,
Running, Succeeded` it returns `Succeeded` after exactly two sleeps of
60, and any status the loop returns is terminal. -/
theorem monitor_two_polls_then_succeeded (q : Nat → Except UpErr JobStatus) (fuel : Nat)
    (h0 : q 0 = .ok .Running) (h1 : q 1 = .ok .Running) (h2 : q 2 = .ok .Succeeded)
    (hf : 3 ≤ fuel) :
    monitor_training_progress q fuel = some ⟨.ok .Succeeded, [60, 60]⟩ ∧
    (∀ q' f' s sl, monitor_training_progress q' f' = some ⟨.ok s, sl⟩ →
      isTerminalStatus s = true) := by
  constructor
  · obtain ⟨m, rfl⟩ : ∃ m, fuel = m + 3 := ⟨fuel - 3, by omega⟩
    show monitorLoop q (m + 2 + 1) 0 [] = _
    rw [monitorLoop_step_running q (m + 2) 0 [] .Running h0 rfl]
    show monitorLoop q (m + 1 + 1) 1 ([] ++ [60]) = _
    rw [monitorLoop_step_running q (m + 1) 1 ([] ++ [60]) .Running h1 rfl]
    rw [monitorLoop_step_terminal q m 2 ([] ++ [60] ++ [60]) .Succeeded h2 rfl]
    simp
  · intro q' f' s sl h
    exact monitorLoop_ok_terminal q' f' 0 [] sl s h

/-- Concrete status source returning `Running, Running, Succeeded`. -/
def seqRunningSucceeded : Nat → Except UpErr JobStatus :=
  fun k => if k < 2 then .ok .Running else .ok .Succeeded

/-- Witness for claim C7 at the `Running, Running, Succeeded` source. -/
theorem monitor_two_polls_then_succeeded_witness :
    monitor_training_progress seqRunningSucceeded 3 =
      some ⟨.ok .Succeeded, [60, 60]⟩ :=
  (monitor_two_polls_then_succeeded seqRunningSucceeded 3
    (by decide) (by decide) (by decide) (by decide)).1

/-! ## Claim C8 -/

/-- Concrete status source whose first query raises and whose later
queries would return `Succeeded`. -/
def qFailOnce : Nat → Except UpErr JobStatus :=
  fun k => if k = 0 then .error .azureError else .ok .Succeeded

/-- Counterexample to claim C8: a single query failure is not retried
on the next scheduled tick — the monitor loop has no exception handler,
so the very first failing query aborts monitoring with that error (no
sleeps, no further queries), even though the next query would have
returned `Succeeded`; no bounded-consecutive-failure threshold and no
`MonitoringError` exist in the code. -/
theorem monitor_no_retry_counterexample :
    qFailOnce 1 = .ok .Succeeded ∧
    monitor_training_progress qFailOnce 5 = some ⟨.error .azureError, []⟩ := by
  decide

/-- Claim C8 as amended: a query failure aborts monitoring immediately:
after `k` non-terminal polls (each followed by a 60-unit sleep), a
query that raises makes the monitor propagate that error as its result
at once — there is no retry of failed queries, no consecutive-failure
threshold, and no `MonitoringError` wrapper. -/
theorem monitor_query_failure_aborts (q : Nat → Except UpErr JobStatus)
    (e : UpErr) (k fuel : Nat)
    (hpre : ∀ i, i < k → q i = .ok .Running)
    (hk : q k = .error e) (hf : k < fuel) :
    monitor_training_progress q fuel = some ⟨.error e, List.replicate k 60⟩ := by
  have h := monitorLoop_error_after q e k fuel 0 []
    (fun i hi => by simpa using hpre i hi) (by simpa using hk) hf
  simpa [monitor_training_progress] using h

/-- Witness for the amended claim C8 at a source failing on its first
query. -/
theorem monitor_query_failure_aborts_witness :
    monitor_training_progress qFailOnce 5 =
      some ⟨.error .azureError, List.replicate 0 60⟩ :=
  monitor_query_failure_aborts qFailOnce .azureError 0 5
    (fun i hi => absurd hi (by omega)) (by decide) (by decide)

/-! ## Claim C9 -/

/-- Claim C9: `validate_config` raises exactly when at least one of
`SPEECH_KEY`, `SPEECH_REGION`, `STORAGE_CONNECTION_STRING` is absent
("absent" formalized as the values Python's `not getattr` test treats
as missing: unset or empty, see `configAbsent`); the raised error
enumerates exactly the missing keys; the container name is not among
the required settings and defaults to `voice-samples` when unset. -/
theorem validate_config_missing_iff (env : Env) :
    (isErr (validate_config env) = true ↔
      (configAbsent (SPEECH_KEY env) ∨ configAbsent (SPEECH_REGION env) ∨
        configAbsent (STORAGE_CONNECTION_STRING env))) ∧
    (∀ l v, validate_config env = .error (.missingRequired l) →
      (v ∈ l ↔ v ∈ requiredVars ∧ configAbsent (getattrConfig env v))) ∧
    "CONTAINER_NAME" ∉ requiredVars ∧
    (env "AZURE_CONTAINER_NAME" = none → CONTAINER_NAME env = "voice-samples") := by
  refine ⟨?_, ?_, by decide, fun h => by simp [CONTAINER_NAME, h]⟩
  · rw [← pyTruthy_false_iff, ← pyTruthy_false_iff, ← pyTruthy_false_iff]
    cases h1 : pyTruthy (SPEECH_KEY env) <;>
      cases h2 : pyTruthy (SPEECH_REGION env) <;>
        cases h3 : pyTruthy (STORAGE_CONNECTION_STRING env) <;>
          simp [validate_config, missingVars, requiredVars, List.filter,
            getattrConfig, h1, h2, h3, isErr]
  · intro l v h
    have hl : l = missingVars env := by
      by_cases he : (missingVars env).isEmpty
      · simp [validate_config, he] at h
      · simp [validate_config, he] at h
        exact h.symm
    subst hl
    rw [missingVars, List.mem_filter]
    constructor
    · rintro ⟨hm, hp⟩
      exact ⟨hm, (pyTruthy_false_iff (getattrConfig env v)).mp (by simpa using hp)⟩
    · rintro ⟨hm, hp⟩
      exact ⟨hm, by simpa using (pyTruthy_false_iff (getattrConfig env v)).mpr hp⟩

/-- Concrete environment with the speech key unset and the other two
required settings present. -/
def envMissingKey : Env := fun k =>
  if k = "AZURE_SPEECH_REGION" then some "westus"
  else if k = "AZURE_STORAGE_CONNECTION_STRING" then some "cs" else none

/-- Witness for claim C9 at an environment missing only the speech
key. -/
theorem validate_config_missing_iff_witness :
    isErr (validate_config envMissingKey) = true ∧
    CONTAINER_NAME envMissingKey = "voice-samples" ∧
    ("SPEECH_KEY" ∈ ["SPEECH_KEY"] ↔
      "SPEECH_KEY" ∈ requiredVars ∧
        configAbsent (getattrConfig envMissingKey "SPEECH_KEY")) := by
  have h := validate_config_missing_iff envMissingKey
  exact ⟨h.1.mpr (Or.inl (Or.inl (by decide))), h.2.2.2 (by decide),
    h.2.1 ["SPEECH_KEY"] "SPEECH_KEY" (by decide)⟩

/-! ## Claim C1 -/

/-- A well-formed dataset record for `a.wav`. -/
def itemA : Item := [("audio_file", "a.wav"), ("text", "hello"), ("duration", "1.2")]

/-- A well-formed dataset record for `b.wav`. -/
def itemB : Item := [("audio_file", "b.wav"), ("text", "world"), ("duration", "0.9")]

/-- A network on which every call succeeds. -/
def netAllOk : NetModel where
  container := .ok ()

/-- Claim C1 is violated by the code (code bug): line 107 calls
`self._upload_dataset_file(dataset_file)` but no `_upload_dataset_file`
method is defined anywhere in the repository, so every run whose
dataset passes validation raises `AttributeError` there, before any
audio-upload task is created. For a valid dataset with working storage
— here the spec's own two-record end-to-end dataset — the pipeline
neither completes successfully nor raises the batch error carrying
per-file failures, and no upload task ever starts, contradicting the
claim (and the function's own docstring, which promises a boolean
success status). -/
theorem valid_dataset_raises_attribute_error :
    validate_dataset_format [itemA, itemB] = true ∧
    upload_training_data netAllOk [itemA, itemB] =
      (.error .attributeError, [NetEvent.ensureContainer]) ∧
    (upload_training_data netAllOk [itemA, itemB]).1 ≠ .ok true ∧
    (∀ p, NetEvent.uploadAudio p ∉ (upload_training_data netAllOk [itemA, itemB]).2) := by
  refine ⟨by decide, by decide, by decide, fun p => ?_⟩
  have h : (upload_training_data netAllOk [itemA, itemB]).2 =
      [NetEvent.ensureContainer] := by decide
  rw [h]
  simp

/-! ## Claim C4 -/

/-- A record missing the required `text` and `duration` fields. -/
def badItem : Item := [("audio_file", "a.wav")]

/-- Counterexample to claim C4: on a malformed one-record dataset the
pipeline does fail with the dataset-format error, but only after the
container-creation network call has been issued — the network-call
trace is `[ensureContainer]`, not empty, because
`_ensure_container_exists` runs before `_load_and_validate_dataset` in
the source. -/
theorem container_call_before_validation :
    validate_dataset_format [badItem] = false ∧
    (upload_training_data netAllOk [badItem]).1 = .error .invalidDataset ∧
    (upload_training_data netAllOk [badItem]).2 = [NetEvent.ensureContainer] ∧
    ¬(upload_training_data netAllOk [badItem]).2 = [] := by
  decide

/-- Claim C4 as amended: container creation precedes dataset loading
and validation, so a malformed record does not prevent that one network
call; validation does complete before any object upload — when any
record is malformed the pipeline raises the dataset-format error and
neither the manifest nor any audio file is uploaded. -/
theorem validation_before_object_uploads (net : NetModel) (dataset : List Item)
    (hv : validate_dataset_format dataset = false) :
    NetEvent.uploadManifest ∉ (upload_training_data net dataset).2 ∧
    (∀ p, NetEvent.uploadAudio p ∉ (upload_training_data net dataset).2) ∧
    (net.container = .ok () →
      upload_training_data net dataset =
        (.error .invalidDataset, [NetEvent.ensureContainer])) := by
  cases hcont : ensure_container_exists net with
  | error e =>
    refine ⟨?_, ?_, ?_⟩ <;> simp [upload_training_data, hcont]
    intro hc
    rw [ensure_container_exists, hc] at hcont
    cases hcont
  | ok u =>
    refine ⟨?_, ?_, ?_⟩ <;> simp [upload_training_data, hcont, hv]

/-- Witness for the amended claim C4 at the malformed one-record
dataset. -/
theorem validation_before_object_uploads_witness :
    NetEvent.uploadManifest ∉ (upload_training_data netAllOk [badItem]).2 ∧
    upload_training_data netAllOk [badItem] =
      (.error .invalidDataset, [NetEvent.ensureContainer]) := by
  have h := validation_before_object_uploads netAllOk [badItem] (by decide)
  exact ⟨h.1, h.2.2 rfl⟩

/-! ## Claim C10 -/

/-- Claim C10 is violated by the code (code bug): the empty dataset
does pass `_validate_dataset_format` (an empty `all` is `True`), but
the pipeline then raises `AttributeError` at the undefined
`_upload_dataset_file` of line 107 — even with working storage it does
not upload only the manifest and return `True`; it uploads nothing
beyond the container-creation call and signals an error, so "the
pipeline never signals an error for a dataset with no records" is
false. -/
theorem empty_dataset_validates_then_crashes :
    validate_dataset_format [] = true ∧
    upload_training_data netAllOk [] =
      (.error .attributeError, [NetEvent.ensureContainer]) ∧
    isErr (upload_training_data netAllOk []).1 = true ∧
    (upload_training_data netAllOk []).1 ≠ .ok true := by
  decide

/-! ## Claim C3 -/

/-- Claim C3 is violated by the code (code bug): the source acquires
`asyncio.Semaphore(max_workers)` once in the coordinating coroutine,
around the whole `gather`, and no upload task ever touches it — so the
semaphore never gates the tasks. The schedule below, in which all 5
upload tasks are in flight simultaneously, is producible by the code
and respects its single-acquire use of a capacity-2 semaphore, yet
reaches 5 > 2 concurrently active tasks, contradicting the claimed
`max_concurrency` bound. -/
theorem semaphore_never_gates_tasks :
    isCodeSchedule 5 allAtOnceSchedule = true ∧
    semaphoreRespected 2 allAtOnceSchedule = true ∧
    maxInFlight 5 allAtOnceSchedule = 5 ∧ 2 < 5 := by
  decide

end AzureVoiceClone
